import Mathlib

/-!
Shallow embedding of the booking time-slot computation and conflict logic of
the BoundaryBox booking application (src/app/book/page.tsx,
src/lib/settings-service.ts, src/lib/booking-service.ts,
src/app/my-bookings/page.tsx, and the SQL function check_booking_conflict
from the repository's migration script).  Times are wall-clock "HH:MM"
strings in the source; they are embedded as hour/minute pairs, and the
source's lexicographic string comparisons are embedded as lexicographic
comparison on the (hour, minute) pair, which agrees with the string order
because the fields are zero-padded to two digits.
-/

/-- An "HH:MM" wall-clock time, embedded as its hour and minute fields
(the source obtains them via `timeString.split(':').map(Number)`). -/
structure HM where
  hour : Nat
  minute : Nat
deriving DecidableEq

/-- Minutes since midnight: `hour * 60 + minute`, as computed throughout
`src/app/book/page.tsx`. -/
def HM.toMin (t : HM) : Nat := t.hour * 60 + t.minute

/-- A well-formed wall-clock time: hour below 24, minute below 60. -/
def HM.WF (t : HM) : Prop := t.hour < 24 ∧ t.minute < 60

instance (t : HM) : Decidable t.WF := by unfold HM.WF; infer_instance

/-- JavaScript `<` on two zero-padded "HH:MM" strings is lexicographic, hence
equals lexicographic comparison of the (hour, minute) pairs. -/
def strLt (a b : HM) : Bool :=
  decide (a.hour < b.hour) || (decide (a.hour = b.hour) && decide (a.minute < b.minute))

/-- JavaScript `<=` on two zero-padded "HH:MM" strings. -/
def strLe (a b : HM) : Bool := strLt a b || decide (a = b)

/-- An existing booking row as fetched for the booking form: just its
`start_time` and `end_time` (active statuses are filtered server-side). -/
structure BookedSlot where
  start_time : HM
  end_time : HM
deriving DecidableEq

/-- The per-booking conflict predicate used by both `validateTimeSelection`
and `isTimeSlotAvailable` in src/app/book/page.tsx (lines 171-247):
`(s1 >= s2 && s1 < e2) || (e1 > s2 && e1 <= e2) || (s1 <= s2 && e1 >= e2)`
where `[s1,e1)` is the candidate and `[s2,e2)` the existing booking. -/
def bookingOverlaps (startTime endTime : HM) (b : BookedSlot) : Bool :=
  (strLe b.start_time startTime && strLt startTime b.end_time) ||
  (strLt b.start_time endTime && strLe endTime b.end_time) ||
  (strLe startTime b.start_time && strLe b.end_time endTime)

/-- `existingBookings.some(...)` from `validateTimeSelection`
(src/app/book/page.tsx lines 189-196). -/
def hasConflictWith (startTime endTime : HM) (existing : List BookedSlot) : Bool :=
  existing.any (bookingOverlaps startTime endTime)

/-- `isTimeSlotAvailable` (src/app/book/page.tsx lines 238-247):
the negation of the `some` above. -/
def isTimeSlotAvailable (startTime endTime : HM) (existing : List BookedSlot) : Bool :=
  !(existing.any (bookingOverlaps startTime endTime))

/-- `calculateDuration` (src/app/book/page.tsx lines 151-169): minutes since
midnight for both ends; under `is_24_7`, an end total ≤ the start total gets
24*60 minutes added; a remaining end ≤ start yields 0; otherwise the minute
difference divided by 60, as a rational number of hours. -/
def calculateDuration (is_24_7 : Bool) (startTime endTime : HM) : ℚ :=
  let startTotalMinutes : ℤ := startTime.toMin
  let endParsed : ℤ := endTime.toMin
  let endTotalMinutes : ℤ :=
    if is_24_7 = true ∧ endParsed ≤ startTotalMinutes then endParsed + 24 * 60 else endParsed
  if endTotalMinutes ≤ startTotalMinutes then 0
  else ((endTotalMinutes - startTotalMinutes : ℤ) : ℚ) / 60

/-- JavaScript `Math.round` on the (non-negative) amounts that occur here:
round half up, i.e. the floor of `x + 1/2`. -/
def jsRound (x : ℚ) : ℤ := ⌊x + 1 / 2⌋

/-- `calculateCost` (src/app/book/page.tsx lines 135-149), for present
inputs: `Math.round(price_per_hour * duration)` when the duration is
positive, else 0. -/
def calculateCost (price_per_hour : ℚ) (is_24_7 : Bool) (startTime endTime : HM) : ℤ :=
  let duration := calculateDuration is_24_7 startTime endTime
  if 0 < duration then jsRound (price_per_hour * duration) else 0

/-- The `SystemSettings` record of src/lib/settings-service.ts, with times
embedded as hour/minute pairs. -/
structure SystemSettings where
  opening_time : HM
  closing_time : HM
  is_24_7 : Bool
  advance_booking_days : Nat
  require_admin_approval : Bool
  booking_slot_duration : Nat
  min_booking_duration : ℚ
  max_booking_duration : ℚ
  cancellation_deadline : ℚ
deriving DecidableEq

/-- The validity rules of the settings resolver (the ranges checked by
`SettingsService.validateSettings`), used as the meaning of "valid settings". -/
def ValidSettings (s : SystemSettings) : Prop :=
  (s.is_24_7 = false → s.opening_time.toMin < s.closing_time.toMin) ∧
  s.opening_time.WF ∧ s.closing_time.WF ∧
  1 ≤ s.advance_booking_days ∧ s.advance_booking_days ≤ 30 ∧
  (s.booking_slot_duration = 15 ∨ s.booking_slot_duration = 30 ∨ s.booking_slot_duration = 60) ∧
  1 / 2 ≤ s.min_booking_duration ∧ s.min_booking_duration ≤ 8 ∧
  1 ≤ s.max_booking_duration ∧ s.max_booking_duration ≤ 12 ∧
  s.min_booking_duration < s.max_booking_duration ∧
  0 ≤ s.cancellation_deadline ∧ s.cancellation_deadline ≤ 48

instance (s : SystemSettings) : Decidable (ValidSettings s) := by
  unfold ValidSettings; infer_instance

/-- `n.toString().padStart(2, '0')`. -/
def pad2 (n : Nat) : String := if n < 10 then "0" ++ toString n else toString n

/-- Formatting of a minutes-since-midnight total as "HH:MM"
(`Math.floor(minutes / 60)` and `minutes % 60`, both zero-padded). -/
def fmtHM (minutes : Nat) : String := pad2 (minutes / 60) ++ ":" ++ pad2 (minutes % 60)

/-- The `for (let minutes = cur; minutes < stop; minutes += slot)` loop of
`generateTimeOptions`, collecting the visited minute totals.  The `0 < slot`
guard only expresses that the source loop terminates because the validated
slot durations (15/30/60) are positive. -/
def genTimes (cur stop slot : Nat) : List Nat :=
  if _h : 0 < slot ∧ cur < stop then cur :: genTimes (cur + slot) stop slot else []
termination_by stop - cur
decreasing_by omega

/-- `generateTimeOptions` (src/app/book/page.tsx lines 205-236): candidate
start times from 0 to 24*60 under `is_24_7`, else from the opening to the
closing minute total, stepping by `booking_slot_duration`, formatted "HH:MM". -/
def generateTimeOptions (s : SystemSettings) : List String :=
  if s.is_24_7 then
    (genTimes 0 (24 * 60) s.booking_slot_duration).map fmtHM
  else
    (genTimes s.opening_time.toMin s.closing_time.toMin s.booking_slot_duration).map fmtHM

/-- The loop's starting minute total in `generateTimeOptions`. -/
def loopStart (s : SystemSettings) : Nat := if s.is_24_7 then 0 else s.opening_time.toMin

/-- The loop's (exclusive) stopping minute total in `generateTimeOptions`. -/
def loopStop (s : SystemSettings) : Nat := if s.is_24_7 then 24 * 60 else s.closing_time.toMin

/-- Number of iterations of the `generateTimeOptions` loop: the ceiling of
`(stop - cur) / slot`. -/
def genSteps (cur stop slot : Nat) : Nat := (stop - cur + slot - 1) / slot

/-- The settings of concrete scenario 1 of the specification: opening 06:00,
closing 22:00, slot 30 minutes, durations 1 to 4 hours. -/
def scenarioSettings : SystemSettings := ⟨⟨6, 0⟩, ⟨22, 0⟩, false, 7, true, 30, 1, 4, 2⟩

/-- A `Partial<SystemSettings>` as passed to `validateSettings`: every field
optional.  `none` stands for an absent field (or an empty time string, which
is equally falsy in the source's guards); numeric fields carry the raw
JavaScript number. -/
structure SettingsPatch where
  opening_time : Option HM := none
  closing_time : Option HM := none
  is_24_7 : Option Bool := none
  advance_booking_days : Option ℚ := none
  booking_slot_duration : Option ℚ := none
  min_booking_duration : Option ℚ := none
  max_booking_duration : Option ℚ := none
  cancellation_deadline : Option ℚ := none
deriving DecidableEq

/-- JavaScript truthiness of the optional `is_24_7` flag. -/
def truthyFlag (x : Option Bool) : Bool := x.getD false

/-- One `if (settings.f && (bad f)) errors.push(msg)` step of
`validateSettings`, for a numeric field: JavaScript truthiness makes a
supplied value of 0 skip its own check. -/
def numErr (x : Option ℚ) (bad : ℚ → Prop) [DecidablePred bad] (msg : String) : List String :=
  match x with
  | some v => if v ≠ 0 ∧ bad v then [msg] else []
  | none => []

/-- The `{ isValid, errors }` result of `validateSettings`. -/
structure ValidationResult where
  isValid : Bool
  errors : List String
deriving DecidableEq

/-- `SettingsService.validateSettings` (src/lib/settings-service.ts lines
114-157), with each guard's JavaScript truthiness preserved: a numeric field
equal to 0 is falsy and skips its own range check. -/
def validateSettings (s : SettingsPatch) : ValidationResult :=
  let timeErr : List String :=
    if truthyFlag s.is_24_7 = false then
      match s.opening_time, s.closing_time with
      | some o, some c =>
          if c.toMin ≤ o.toMin then ["Opening time must be before closing time"] else []
      | _, _ => []
    else []
  let advErr := numErr s.advance_booking_days (fun v => v < 1 ∨ 30 < v)
    "Advance booking days must be between 1 and 30"
  let slotErr := numErr s.booking_slot_duration (fun v => ¬(v = 15 ∨ v = 30 ∨ v = 60))
    "Booking slot duration must be 15, 30, or 60 minutes"
  let minMaxErr : List String :=
    match s.min_booking_duration, s.max_booking_duration with
    | some v, some w =>
        if v ≠ 0 ∧ w ≠ 0 ∧ w ≤ v then
          ["Minimum booking duration must be less than maximum duration"]
        else []
    | _, _ => []
  let minErr := numErr s.min_booking_duration (fun v => v < 1 / 2 ∨ 8 < v)
    "Minimum booking duration must be between 0.5 and 8 hours"
  let maxErr := numErr s.max_booking_duration (fun v => v < 1 ∨ 12 < v)
    "Maximum booking duration must be between 1 and 12 hours"
  let deadlineErr := numErr s.cancellation_deadline (fun v => v < 0 ∨ 48 < v)
    "Cancellation deadline must be between 0 and 48 hours"
  let errors := timeErr ++ advErr ++ slotErr ++ minMaxErr ++ minErr ++ maxErr ++ deadlineErr
  ⟨errors.length = 0, errors⟩

/-- The booking status strings of the database schema and
src/lib/booking-service.ts. -/
inductive BookingStatus
  | pending
  | confirmed
  | canceled
  | no_show
  | completed
deriving DecidableEq

/-- A stored booking row, restricted to the fields `updateBookingStatus`
touches or filters on. -/
structure BookingRow where
  id : Nat
  status : BookingStatus
  notes : Option String
deriving DecidableEq

/-- The effect of the `update(updateData)` payload of
`BookingService.updateBookingStatus` on one row: the status is always
replaced; the notes only when a notes argument was passed. -/
def applyStatusUpdate (r : BookingRow) (status : BookingStatus) (notes : Option String) :
    BookingRow :=
  ⟨r.id, status, match notes with | some n => some n | none => r.notes⟩

/-- `BookingService.updateBookingStatus` (src/lib/booking-service.ts lines
109-132): a plain `update ... eq('id', bookingId) ... single()` with no
inspection of the row's current status; returns the new table contents and
the row `.single()` yields (`none` models the error when no row matches). -/
def updateBookingStatus (db : List BookingRow) (bookingId : Nat) (status : BookingStatus)
    (notes : Option String) : List BookingRow × Option BookingRow :=
  let db2 := db.map (fun r => if r.id = bookingId then applyStatusUpdate r status notes else r)
  (db2, db2.find? (fun r => r.id = bookingId))

/-- `canCancelBooking` (src/app/my-bookings/page.tsx lines 126-133):
`hoursDifference = (bookingDateTime - now) / (1000*60*60)` on millisecond
epoch values; cancellation allowed for `pending`, or for `confirmed` with
`hoursDifference > 2` — the threshold 2 is hard-coded in the source. -/
def canCancelBooking (status : BookingStatus) (bookingTimeMs nowMs : ℤ) : Bool :=
  let hoursDifference : ℚ := ((bookingTimeMs - nowMs : ℤ) : ℚ) / (1000 * 60 * 60)
  decide (status = .pending) ||
    (decide (status = .confirmed) && decide ((2 : ℚ) < hoursDifference))

/-- Modelled from the spec (section 4.5): the user-cancellation rule as the
spec states it, with the deadline read from
`SystemSettings.cancellation_deadline` instead of the source's hard-coded 2. -/
def canCancelBookingSpec (cancellation_deadline : ℚ) (status : BookingStatus)
    (bookingTimeMs nowMs : ℤ) : Bool :=
  let hoursDifference : ℚ := ((bookingTimeMs - nowMs : ℤ) : ℚ) / (1000 * 60 * 60)
  decide (status = .pending) ||
    (decide (status = .confirmed) && decide (cancellation_deadline < hoursDifference))

/-- `getMinDate` (src/app/book/page.tsx lines 344-356), with calendar dates
abstracted to day indices: today when `settings?.is_24_7` is truthy, else
tomorrow. -/
def getMinDate (settings : Option SystemSettings) (today : ℤ) : ℤ :=
  match settings with
  | some s => if s.is_24_7 then today else today + 1
  | none => today + 1

/-- A stored active booking interval for one (game, date), in minutes since
midnight, as the SQL function `check_booking_conflict` compares the TIME
columns. -/
structure StoredIv where
  s : Nat
  e : Nat
deriving DecidableEq

/-- The SQL function `check_booking_conflict` (defined in the repository's
migration script): counts active bookings of the (game, date) with
`start_time < p_end_time AND end_time > p_start_time` and returns whether
the count is positive; the store is already restricted to the (game, date)
active rows and no exclusion id is passed on the create path. -/
def rpcCheckConflict (store : List StoredIv) (iv : StoredIv) : Bool :=
  store.any (fun b => decide (b.s < iv.e) && decide (iv.s < b.e))

/-- The bookings-table insert issued by `createBooking`: a plain row insert —
the repository's schema places no uniqueness or exclusion constraint on the
bookings table, so it always succeeds. -/
def insertBooking (store : List StoredIv) (iv : StoredIv) : List StoredIv :=
  store ++ [iv]

/-- The program counter of one in-flight `BookingService.createBooking` call:
before its conflict-check round trip, between the two round trips (holding
the check's answer), or finished (holding whether a booking was created;
`false` means the caller received the "Time slot is already booked" error). -/
inductive CreatePC
  | start
  | checked (conflict : Bool)
  | finished (created : Bool)
deriving DecidableEq

/-- One awaited round trip of a `createBooking` call against the shared
store: first the `check_booking_conflict` RPC, then — only if the check said
no conflict — the insert.  Each constructor-step is atomic; suspension
occurs between them, at the `await` boundaries of the source. -/
def createStep (store : List StoredIv) (iv : StoredIv) :
    CreatePC → List StoredIv × CreatePC
  | .start => (store, .checked (rpcCheckConflict store iv))
  | .checked true => (store, .finished false)
  | .checked false => (insertBooking store iv, .finished true)
  | .finished r => (store, .finished r)

/-- Interleaved execution of two concurrent `createBooking` calls: the
schedule says which call performs its next round trip (`true` for the first
call). -/
def runTwoCreates (iv1 iv2 : StoredIv) :
    List Bool → List StoredIv × CreatePC × CreatePC → List StoredIv × CreatePC × CreatePC
  | [], st => st
  | first :: rest, (store, p1, p2) =>
      if first then
        let (store2, p1b) := createStep store iv1 p1
        runTwoCreates iv1 iv2 rest (store2, p1b, p2)
      else
        let (store2, p2b) := createStep store iv2 p2
        runTwoCreates iv1 iv2 rest (store2, p1, p2b)

/-- The observable outcome of one `BookingService.createBooking` call
(src/lib/booking-service.ts lines 25-54) with the two storage round trips
injected as parameters: whether the insert round trip was issued, whether a
booking was created, and the returned error value. -/
structure CreateRun where
  insertIssued : Bool
  bookingCreated : Bool
  errorReturned : Option String
deriving DecidableEq

/-- `BookingService.checkBookingConflict` (src/lib/booking-service.ts lines
160-182) with the RPC outcome injected: on success the RPC's boolean answer;
on a storage error the `catch` block logs and returns `false`. -/
def checkBookingConflict (rpcOutcome : Except String Bool) : Bool :=
  match rpcOutcome with
  | .ok answer => answer
  | .error _ => false

/-- `BookingService.createBooking` with its two round-trip outcomes injected:
if `checkBookingConflict` answers `true` the call returns the "Time slot is
already booked" error without inserting; otherwise the insert round trip is
issued and its outcome (row or error) is returned. -/
def createBooking (rpcOutcome : Except String Bool)
    (insertOutcome : Except String Unit) : CreateRun :=
  if checkBookingConflict rpcOutcome then
    ⟨false, false, some "Time slot is already booked"⟩
  else
    match insertOutcome with
    | .ok _ => ⟨true, true, none⟩
    | .error e => ⟨true, false, some e⟩

theorem strLt_iff (a b : HM) (ha : a.minute < 60) (hb : b.minute < 60) :
    strLt a b = true ↔ a.toMin < b.toMin := by
  simp only [strLt, HM.toMin, Bool.or_eq_true, Bool.and_eq_true, decide_eq_true_eq]
  omega

theorem strLe_iff (a b : HM) (ha : a.minute < 60) (hb : b.minute < 60) :
    strLe a b = true ↔ a.toMin ≤ b.toMin := by
  simp only [strLe, Bool.or_eq_true, decide_eq_true_eq, strLt_iff a b ha hb]
  obtain ⟨ah, am⟩ := a
  obtain ⟨bh, bm⟩ := b
  dsimp only at ha hb
  simp only [HM.toMin, HM.mk.injEq]
  omega

theorem bookingOverlaps_iff (s1 e1 : HM) (b : BookedSlot)
    (hs1 : s1.minute < 60) (he1 : e1.minute < 60)
    (hbs : b.start_time.minute < 60) (hbe : b.end_time.minute < 60)
    (hcand : s1.toMin < e1.toMin) (hbook : b.start_time.toMin < b.end_time.toMin) :
    bookingOverlaps s1 e1 b = true ↔
      s1.toMin < b.end_time.toMin ∧ b.start_time.toMin < e1.toMin := by
  simp only [bookingOverlaps, Bool.or_eq_true, Bool.and_eq_true,
    strLt_iff s1 b.end_time hs1 hbe, strLt_iff b.start_time e1 hbs he1,
    strLe_iff b.start_time s1 hbs hs1, strLe_iff e1 b.end_time he1 hbe,
    strLe_iff s1 b.start_time hs1 hbs, strLe_iff b.end_time e1 hbe he1]
  omega

theorem genSteps_succ (cur stop slot : Nat) (hslot : 0 < slot) (hlt : cur < stop) :
    genSteps cur stop slot = genSteps (cur + slot) stop slot + 1 := by
  unfold genSteps
  rcases le_or_lt (stop - cur) slot with hd | hd
  · have h1 : stop - cur + slot - 1 = (stop - cur - 1) + slot := by omega
    have h2 : stop - (cur + slot) = 0 := by omega
    rw [h1, Nat.add_div_right _ hslot, h2]
    rw [Nat.div_eq_of_lt (by omega), Nat.div_eq_of_lt (by omega)]
  · have h1 : stop - cur + slot - 1 = (stop - cur - 1) + slot := by omega
    have h2 : stop - (cur + slot) + slot - 1 = (stop - cur - slot - 1) + slot := by omega
    rw [h1, h2, Nat.add_div_right _ hslot, Nat.add_div_right _ hslot]
    have h3 : stop - cur - 1 = (stop - cur - slot - 1) + slot := by omega
    rw [h3, Nat.add_div_right _ hslot]

theorem genTimes_eq_range (cur stop slot : Nat) (hslot : 0 < slot) :
    genTimes cur stop slot
      = (List.range (genSteps cur stop slot)).map (fun i => cur + i * slot) := by
  generalize hfuel : stop - cur = fuel
  induction fuel using Nat.strong_induction_on generalizing cur with
  | _ fuel ih =>
    rw [genTimes]
    by_cases hlt : cur < stop
    · rw [dif_pos (⟨hslot, hlt⟩ : 0 < slot ∧ cur < stop)]
      rw [ih (stop - (cur + slot)) (by omega) (cur + slot) rfl]
      rw [genSteps_succ cur stop slot hslot hlt]
      rw [List.range_succ_eq_map, List.map_cons, List.map_map]
      simp only [Nat.zero_mul, Nat.add_zero, List.cons.injEq, true_and]
      apply List.map_congr_left
      intro i _
      simp only [Function.comp_apply, Nat.succ_eq_add_one]
      ring
    · rw [dif_neg (by omega : ¬(0 < slot ∧ cur < stop))]
      have h0 : genSteps cur stop slot = 0 := by
        unfold genSteps
        apply Nat.div_eq_of_lt
        omega
      rw [h0]
      simp

theorem genSteps_mul_lt (cur stop slot i : Nat) (hslot : 0 < slot)
    (hi : i < genSteps cur stop slot) : cur + i * slot < stop := by
  unfold genSteps at hi
  have h1 : i + 1 ≤ (stop - cur + slot - 1) / slot := hi
  have h2 : (i + 1) * slot ≤ stop - cur + slot - 1 := (Nat.le_div_iff_mul_le hslot).mp h1
  have h3 : i * slot + slot ≤ stop - cur + slot - 1 := by rw [Nat.succ_mul] at h2; omega
  omega

theorem numErr_eq_nil (x : Option ℚ) (bad : ℚ → Prop) [DecidablePred bad] (msg : String) :
    numErr x bad msg = [] ↔ ∀ v, x = some v → v ≠ 0 → ¬ bad v := by
  rcases x with _ | v
  · simp [numErr]
  · simp only [numErr, Option.some.injEq]
    split_ifs with h
    · constructor
      · intro hx; cases hx
      · intro hall; exact absurd (hall v rfl h.1) (not_not.mpr h.2)
    · constructor
      · rintro _ w rfl hnz hbad
        exact h ⟨hnz, hbad⟩
      · intro _; rfl

theorem mem_numErr (m : String) (x : Option ℚ) (bad : ℚ → Prop) [DecidablePred bad]
    (msg : String) :
    m ∈ numErr x bad msg ↔ (m = msg ∧ ∃ v, x = some v ∧ v ≠ 0 ∧ bad v) := by
  rcases x with _ | v
  · simp [numErr]
  · simp only [numErr, Option.some.injEq]
    split_ifs with h
    · simp only [List.mem_singleton]
      constructor
      · intro hm; exact ⟨hm, v, rfl, h.1, h.2⟩
      · intro hm; exact hm.1
    · simp only [List.not_mem_nil, false_iff, not_and, not_exists]
      rintro _ w rfl hnz hbad
      exact h ⟨hnz, hbad⟩

theorem mem_timeErr (m : String) (s : SettingsPatch) :
    (m ∈ (if truthyFlag s.is_24_7 = false then
        match s.opening_time, s.closing_time with
        | some o, some c =>
            if c.toMin ≤ o.toMin then ["Opening time must be before closing time"] else []
        | _, _ => ([] : List String)
      else [])) ↔
      (m = "Opening time must be before closing time" ∧ truthyFlag s.is_24_7 = false ∧
        ∃ o c, s.opening_time = some o ∧ s.closing_time = some c ∧ c.toMin ≤ o.toMin) := by
  split_ifs with hf
  · rcases s.opening_time with _ | o <;> rcases s.closing_time with _ | c
    · simp
    · simp
    · simp
    · simp only [Option.some.injEq]
      split_ifs with hoc
      · simp only [List.mem_singleton]
        constructor
        · intro hm; exact ⟨hm, hf, o, c, rfl, rfl, hoc⟩
        · intro hm; exact hm.1
      · simp only [List.not_mem_nil, false_iff, not_and, not_exists]
        rintro _ _ o' c' rfl rfl hle
        exact hoc hle
  · simp only [List.not_mem_nil, false_iff, not_and]
    intro _ hf2
    exact absurd hf2 hf

theorem mem_minMaxErr (m : String) (s : SettingsPatch) :
    (m ∈ (match s.min_booking_duration, s.max_booking_duration with
      | some v, some w =>
          if v ≠ 0 ∧ w ≠ 0 ∧ w ≤ v then
            ["Minimum booking duration must be less than maximum duration"]
          else []
      | _, _ => ([] : List String))) ↔
      (m = "Minimum booking duration must be less than maximum duration" ∧
        ∃ v w, s.min_booking_duration = some v ∧ s.max_booking_duration = some w ∧
          v ≠ 0 ∧ w ≠ 0 ∧ w ≤ v) := by
  rcases s.min_booking_duration with _ | v <;> rcases s.max_booking_duration with _ | w
  · simp
  · simp
  · simp
  · simp only [Option.some.injEq]
    split_ifs with h
    · simp only [List.mem_singleton]
      constructor
      · intro hm; exact ⟨hm, v, w, rfl, rfl, h.1, h.2.1, h.2.2⟩
      · intro hm; exact hm.1
    · simp only [List.not_mem_nil, false_iff, not_and, not_exists]
      rintro _ v' w' rfl rfl hnz wnz hle
      exact h ⟨hnz, wnz, hle⟩

theorem rat_not_or_lt_iff (v a b : ℚ) : ¬(v < a ∨ b < v) ↔ a ≤ v ∧ v ≤ b := by
  rw [not_or, not_lt, not_lt]

theorem validateSettings_errors_nil_iff (s : SettingsPatch) :
    (validateSettings s).errors = [] ↔
      ( (truthyFlag s.is_24_7 = false →
          ∀ o c, s.opening_time = some o → s.closing_time = some c → o.toMin < c.toMin)
      ∧ (∀ v, s.advance_booking_days = some v → v ≠ 0 → 1 ≤ v ∧ v ≤ 30)
      ∧ (∀ v, s.booking_slot_duration = some v → v ≠ 0 → v = 15 ∨ v = 30 ∨ v = 60)
      ∧ (∀ v w, s.min_booking_duration = some v → s.max_booking_duration = some w →
          v ≠ 0 → w ≠ 0 → v < w)
      ∧ (∀ v, s.min_booking_duration = some v → v ≠ 0 → 1 / 2 ≤ v ∧ v ≤ 8)
      ∧ (∀ v, s.max_booking_duration = some v → v ≠ 0 → 1 ≤ v ∧ v ≤ 12)
      ∧ (∀ v, s.cancellation_deadline = some v → v ≠ 0 → 0 ≤ v ∧ v ≤ 48)) := by
  simp only [validateSettings, List.append_eq_nil, and_assoc]
  refine and_congr ?_ (and_congr ?_ (and_congr ?_ (and_congr ?_ (and_congr ?_
    (and_congr ?_ ?_)))))
  · split_ifs with hf
    · rcases s.opening_time with _ | o <;> rcases s.closing_time with _ | c <;>
        simp only [Option.some.injEq]
      · simp
      · simp
      · simp
      · split_ifs with hoc
        · constructor
          · intro hx; cases hx
          · intro hall; exact absurd (hall hf o c rfl rfl) (by omega)
        · constructor
          · rintro _ _ o' c' rfl rfl
            omega
          · intro _; rfl
    · rw [eq_self_iff_true, true_iff]
      intro hf2
      exact absurd hf2 hf
  · rw [numErr_eq_nil]
    refine forall_congr' fun v => imp_congr Iff.rfl (imp_congr Iff.rfl ?_)
    exact rat_not_or_lt_iff v 1 30
  · rw [numErr_eq_nil]
    refine forall_congr' fun v => imp_congr Iff.rfl (imp_congr Iff.rfl ?_)
    exact not_not
  · rcases s.min_booking_duration with _ | v <;> rcases s.max_booking_duration with _ | w <;>
      simp only [Option.some.injEq]
    · simp
    · simp
    · simp
    · split_ifs with h
      · constructor
        · intro hx; cases hx
        · intro hall
          exact absurd (hall v w rfl rfl h.1 h.2.1) (not_lt.mpr h.2.2)
      · constructor
        · rintro _ v' w' rfl rfl hnz wnz
          by_contra hlt
          exact h ⟨hnz, wnz, not_lt.mp hlt⟩
        · intro _; rfl
  · rw [numErr_eq_nil]
    refine forall_congr' fun v => imp_congr Iff.rfl (imp_congr Iff.rfl ?_)
    exact rat_not_or_lt_iff v (1 / 2) 8
  · rw [numErr_eq_nil]
    refine forall_congr' fun v => imp_congr Iff.rfl (imp_congr Iff.rfl ?_)
    exact rat_not_or_lt_iff v 1 12
  · rw [numErr_eq_nil]
    refine forall_congr' fun v => imp_congr Iff.rfl (imp_congr Iff.rfl ?_)
    exact rat_not_or_lt_iff v 0 48

theorem validateSettings_isValid_iff_nil (s : SettingsPatch) :
    (validateSettings s).isValid = true ↔ (validateSettings s).errors = [] := by
  simp only [validateSettings, decide_eq_true_eq]
  exact List.length_eq_zero

theorem jsRound_intCast (z : ℤ) : jsRound (z : ℚ) = z := by
  unfold jsRound
  rw [Int.floor_int_add]
  norm_num

theorem calculateDuration_refl (t : HM) : calculateDuration false t t = 0 := by
  simp only [calculateDuration, Bool.false_eq_true, false_and, if_false]
  rw [if_pos le_rfl]

/-- C1: the claim asserts that two concurrent create-booking calls for
overlapping intervals on the same game and date cannot both return a created
booking because the conflict check and the insert form a single atomic unit.
The source performs them as two separate round trips with no server-side
constraint: interleaving both conflict checks before both inserts makes both
identical 10:00-11:00 requests succeed and stores two overlapping rows
(which the server's own conflict predicate then reports as conflicting),
while only the fully sequential execution rejects the second request. -/
theorem createBooking_check_then_insert_race :
    runTwoCreates ⟨600, 660⟩ ⟨600, 660⟩ [true, false, true, false] ([], .start, .start)
      = ([⟨600, 660⟩, ⟨600, 660⟩], .finished true, .finished true)
  ∧ runTwoCreates ⟨600, 660⟩ ⟨600, 660⟩ [true, true, false, false] ([], .start, .start)
      = ([⟨600, 660⟩], .finished true, .finished false)
  ∧ rpcCheckConflict [⟨600, 660⟩] ⟨600, 660⟩ = true := by
  decide

/-- C2: for a candidate interval `[s1,e1)` with `s1 < e1` and existing
bookings with well-formed intervals `[s2,e2)` (`s2 < e2`), the conflict test
of the booking form reports a conflict iff some existing booking satisfies
`s1 < e2` and `s2 < e1`; `isTimeSlotAvailable` is its negation, and a
candidate that only touches boundaries is never a conflict. -/
theorem hasConflictWith_iff (s1 e1 : HM) (existing : List BookedSlot)
    (hs1 : s1.minute < 60) (he1 : e1.minute < 60)
    (hcand : s1.toMin < e1.toMin)
    (hex : ∀ b ∈ existing, b.start_time.minute < 60 ∧ b.end_time.minute < 60 ∧
      b.start_time.toMin < b.end_time.toMin) :
    (hasConflictWith s1 e1 existing = true ↔
      ∃ b ∈ existing, s1.toMin < b.end_time.toMin ∧ b.start_time.toMin < e1.toMin)
  ∧ isTimeSlotAvailable s1 e1 existing = !(hasConflictWith s1 e1 existing)
  ∧ ((∀ b ∈ existing, b.end_time.toMin = s1.toMin ∨ e1.toMin = b.start_time.toMin) →
      hasConflictWith s1 e1 existing = false) := by
  have hiff : hasConflictWith s1 e1 existing = true ↔
      ∃ b ∈ existing, s1.toMin < b.end_time.toMin ∧ b.start_time.toMin < e1.toMin := by
    simp only [hasConflictWith, List.any_eq_true]
    constructor
    · rintro ⟨b, hmem, hover⟩
      obtain ⟨h1, h2, h3⟩ := hex b hmem
      exact ⟨b, hmem, (bookingOverlaps_iff s1 e1 b hs1 he1 h1 h2 hcand h3).mp hover⟩
    · rintro ⟨b, hmem, hover⟩
      obtain ⟨h1, h2, h3⟩ := hex b hmem
      exact ⟨b, hmem, (bookingOverlaps_iff s1 e1 b hs1 he1 h1 h2 hcand h3).mpr hover⟩
  refine ⟨hiff, rfl, ?_⟩
  intro htouch
  rw [Bool.eq_false_iff]
  intro hc
  obtain ⟨b, hmem, h1, h2⟩ := hiff.mp hc
  obtain ⟨-, -, h3⟩ := hex b hmem
  rcases htouch b hmem with h | h <;> omega

/-- C2 witness: scenario 3 — against the existing booking 10:00-12:00 the
candidate 09:30-10:30 conflicts and the candidate 09:00-10:00 (boundary
touch) does not. -/
theorem hasConflictWith_iff_witness :
    hasConflictWith ⟨9, 30⟩ ⟨10, 30⟩ [⟨⟨10, 0⟩, ⟨12, 0⟩⟩] = true ∧
    hasConflictWith ⟨9, 0⟩ ⟨10, 0⟩ [⟨⟨10, 0⟩, ⟨12, 0⟩⟩] = false := by
  constructor
  · exact (hasConflictWith_iff ⟨9, 30⟩ ⟨10, 30⟩ [⟨⟨10, 0⟩, ⟨12, 0⟩⟩]
      (by decide) (by decide) (by decide) (by decide)).1.mpr
      ⟨⟨⟨10, 0⟩, ⟨12, 0⟩⟩, by decide, by decide⟩
  · exact (hasConflictWith_iff ⟨9, 0⟩ ⟨10, 0⟩ [⟨⟨10, 0⟩, ⟨12, 0⟩⟩]
      (by decide) (by decide) (by decide) (by decide)).2.2 (by decide)

/-- C3 counterexample: the claim asserts that a requested transition outside
the table — in particular admin `completed → confirmed` — is rejected with an
InvalidTransition error and the stored status is unchanged.  On a table
holding one completed booking, `updateBookingStatus` changes the stored
status to confirmed and returns the updated row; no rejection occurs. -/
theorem updateBookingStatus_completed_to_confirmed :
    updateBookingStatus [⟨1, .completed, none⟩] 1 .confirmed none
      = ([⟨1, .confirmed, none⟩], some ⟨1, .confirmed, none⟩) := by
  decide

/-- C3 amended: `updateBookingStatus` validates nothing — it overwrites the
matching row's status with any requested status (including transitions out
of terminal states) and leaves the other rows unchanged; no
InvalidTransition rejection exists in the service, transition restrictions
live only in which buttons each UI caller offers. -/
theorem updateBookingStatus_overwrites (db : List BookingRow) (bookingId : Nat)
    (status : BookingStatus) (notes : Option String) :
    (∀ r ∈ (updateBookingStatus db bookingId status notes).1,
        (r.id = bookingId → r.status = status) ∧ (r.id ≠ bookingId → r ∈ db))
  ∧ (∀ r ∈ db, r.id ≠ bookingId → r ∈ (updateBookingStatus db bookingId status notes).1) := by
  constructor
  · intro r hr
    simp only [updateBookingStatus, List.mem_map] at hr
    obtain ⟨a, ha, heq⟩ := hr
    by_cases hid : a.id = bookingId
    · rw [if_pos hid] at heq
      subst heq
      refine ⟨fun _ => rfl, fun hne => absurd hid hne⟩
    · rw [if_neg hid] at heq
      subst heq
      exact ⟨fun h => absurd h hid, fun _ => ha⟩
  · intro r hr hne
    simp only [updateBookingStatus, List.mem_map]
    exact ⟨r, hr, by rw [if_neg hne]⟩

/-- C3 witness: the amended theorem applied to a one-row table holding a
completed booking being set to confirmed, and to a row the update does not
target. -/
theorem updateBookingStatus_overwrites_witness :
    (⟨1, BookingStatus.confirmed, none⟩ : BookingRow).status = .confirmed ∧
    (⟨2, BookingStatus.pending, none⟩ : BookingRow)
      ∈ (updateBookingStatus [⟨2, .pending, none⟩] 1 .confirmed none).1 := by
  constructor
  · exact ((updateBookingStatus_overwrites [⟨1, .completed, none⟩] 1 .confirmed none).1
      ⟨1, .confirmed, none⟩ (by decide)).1 rfl
  · exact (updateBookingStatus_overwrites [⟨2, .pending, none⟩] 1 .confirmed none).2
      ⟨2, .pending, none⟩ (by decide) (by decide)

/-- C4: for well-formed times with end ≤ start in minutes, `is_24_7 = true`
wraps the end past midnight (duration computed after adding 1440 minutes),
while `is_24_7 = false` yields duration 0 and hence cost 0; concretely
23:00-05:00 under 24/7 lasts 6 hours and costs price × 6. -/
theorem calculateDuration_wrap (s e : HM) (hs : s.WF) (_he : e.WF)
    (hle : e.toMin ≤ s.toMin) :
    calculateDuration true s e = ((e.toMin : ℚ) + 1440 - s.toMin) / 60
  ∧ calculateDuration false s e = 0
  ∧ (∀ p : ℚ, calculateCost p false s e = 0)
  ∧ calculateDuration true ⟨23, 0⟩ ⟨5, 0⟩ = 6
  ∧ (∀ n : ℕ, calculateCost (n : ℚ) true ⟨23, 0⟩ ⟨5, 0⟩ = 6 * n) := by
  have hsb : s.toMin < 1440 := by
    obtain ⟨h1, h2⟩ := hs
    unfold HM.toMin
    omega
  have hwrap : calculateDuration true s e = ((e.toMin : ℚ) + 1440 - s.toMin) / 60 := by
    simp only [calculateDuration, eq_self_iff_true, true_and]
    rw [if_pos (show (e.toMin : ℤ) ≤ (s.toMin : ℤ) from by exact_mod_cast hle)]
    rw [if_neg (show ¬((e.toMin : ℤ) + 24 * 60 ≤ (s.toMin : ℤ)) from by push_cast; omega)]
    push_cast
    ring
  have hzero : calculateDuration false s e = 0 := by
    simp only [calculateDuration, Bool.false_eq_true, false_and, if_false]
    rw [if_pos (show (e.toMin : ℤ) ≤ (s.toMin : ℤ) from by exact_mod_cast hle)]
  have hcost0 : ∀ p : ℚ, calculateCost p false s e = 0 := by
    intro p
    unfold calculateCost
    rw [hzero]
    norm_num
  have hd6 : calculateDuration true ⟨23, 0⟩ ⟨5, 0⟩ = 6 := by
    norm_num [calculateDuration, HM.toMin]
  refine ⟨hwrap, hzero, hcost0, hd6, ?_⟩
  intro n
  unfold calculateCost
  rw [hd6, if_pos (by norm_num)]
  rw [show ((n : ℚ) * 6) = ((6 * n : ℤ) : ℚ) by push_cast; ring]
  rw [jsRound_intCast]

/-- C4 witness: the wrap theorem applied at 23:00-05:00, giving duration 6
hours under 24/7 and duration 0 (cost 0) otherwise. -/
theorem calculateDuration_wrap_witness :
    calculateDuration true ⟨23, 0⟩ ⟨5, 0⟩ = 6 ∧
    calculateDuration false ⟨23, 0⟩ ⟨5, 0⟩ = 0 ∧
    calculateCost 500 true ⟨23, 0⟩ ⟨5, 0⟩ = 6 * 500 := by
  refine ⟨?_, ?_, ?_⟩
  · exact (calculateDuration_wrap ⟨23, 0⟩ ⟨5, 0⟩ (by decide) (by decide)
      (by decide)).2.2.2.1
  · exact (calculateDuration_wrap ⟨23, 0⟩ ⟨5, 0⟩ (by decide) (by decide) (by decide)).2.1
  · have h := (calculateDuration_wrap ⟨23, 0⟩ ⟨5, 0⟩ (by decide) (by decide)
      (by decide)).2.2.2.2 500
    exact_mod_cast h

/-- C5 counterexample: the claim asserts `cost(price, t, t) = 0` for any
time `t`; with `is_24_7 = true` the pair (10:00, 10:00) wraps to a 24-hour
duration and `calculateCost` returns 500 × 24 = 12000, not 0. -/
theorem calculateCost_same_time_24_7_nonzero :
    calculateCost 500 true ⟨10, 0⟩ ⟨10, 0⟩ = 12000 ∧ (12000 : ℤ) ≠ 0 := by
  constructor
  · norm_num [calculateCost, calculateDuration, jsRound, HM.toMin]
  · decide

/-- C5 amended: for a positive hourly price, a positive computed duration d
yields cost = round-half-up(price × d) (the unique integer in
(price·d − 1/2, price·d + 1/2]), a duration ≤ 0 yields cost 0, and
`cost(price, t, t) = 0` holds when `is_24_7` is false (under 24/7 the pair
(t, t) wraps to 24 hours instead); price 500 over 14:00-15:30 costs 750. -/
theorem calculateCost_rounding (p : ℚ) (_hp : 0 < p) (b : Bool) (s e : HM) :
    (0 < calculateDuration b s e →
      calculateCost p b s e = ⌊p * calculateDuration b s e + 1 / 2⌋ ∧
      p * calculateDuration b s e - 1 / 2 < (calculateCost p b s e : ℚ) ∧
      (calculateCost p b s e : ℚ) ≤ p * calculateDuration b s e + 1 / 2)
  ∧ (calculateDuration b s e ≤ 0 → calculateCost p b s e = 0)
  ∧ (∀ t : HM, calculateCost p false t t = 0)
  ∧ calculateCost 500 false ⟨14, 0⟩ ⟨15, 30⟩ = 750 := by
  refine ⟨?_, ?_, ?_, ?_⟩
  · intro hd
    unfold calculateCost jsRound
    rw [if_pos hd]
    refine ⟨rfl, ?_, ?_⟩
    · have := Int.sub_one_lt_floor (p * calculateDuration b s e + 1 / 2)
      linarith
    · exact Int.floor_le _
  · intro hd
    unfold calculateCost
    rw [if_neg (not_lt.mpr hd)]
  · intro t
    unfold calculateCost
    rw [calculateDuration_refl]
    norm_num
  · norm_num [calculateCost, calculateDuration, jsRound, HM.toMin]

/-- C5 witness: the rounding theorem applied at price 500 over 14:00-15:30,
giving cost 750. -/
theorem calculateCost_rounding_witness :
    (0 : ℚ) < 500 ∧ calculateCost 500 false ⟨14, 0⟩ ⟨15, 30⟩ = 750 :=
  ⟨by norm_num, (calculateCost_rounding 500 (by norm_num) false ⟨14, 0⟩ ⟨15, 30⟩).2.2.2⟩

/-- C6: for valid settings, `generateTimeOptions` is the formatted image of
the arithmetic progression starting at the opening minute (0 under 24/7),
stepping by `booking_slot_duration`, with every generated minute strictly
below the closing minute (24*60 under 24/7); its first entry is the opening
time; under 24/7 it has exactly 1440 / slot entries; and for scenario 1
(06:00-22:00, slot 30) the first entry is "06:00" and the last "21:30". -/
theorem generateTimeOptions_spec (s : SystemSettings) (hv : ValidSettings s) :
    generateTimeOptions s
        = (List.range (genSteps (loopStart s) (loopStop s) s.booking_slot_duration)).map
            (fun i => fmtHM (loopStart s + i * s.booking_slot_duration))
  ∧ (generateTimeOptions s).head? = some (fmtHM (loopStart s))
  ∧ (∀ i, i < (generateTimeOptions s).length →
      loopStart s + i * s.booking_slot_duration < loopStop s)
  ∧ (s.is_24_7 = true → (generateTimeOptions s).length = 1440 / s.booking_slot_duration)
  ∧ (s = scenarioSettings →
      (generateTimeOptions s).head? = some "06:00" ∧
      (generateTimeOptions s).getLast? = some "21:30") := by
  obtain ⟨hoc, hwo, hwc, -, -, hslot3, -⟩ := hv
  have hslot : 0 < s.booking_slot_duration := by rcases hslot3 with h | h | h <;> omega
  have hmain : generateTimeOptions s
      = (List.range (genSteps (loopStart s) (loopStop s) s.booking_slot_duration)).map
          (fun i => fmtHM (loopStart s + i * s.booking_slot_duration)) := by
    unfold generateTimeOptions loopStart loopStop
    by_cases h247 : s.is_24_7 <;>
      simp [h247, genTimes_eq_range _ _ _ hslot, List.map_map, Function.comp]
  have hstartlt : loopStart s < loopStop s := by
    unfold loopStart loopStop
    by_cases h247 : s.is_24_7
    · simp [h247]
    · simp only [h247, if_false]
      exact hoc (by simp [h247])
  have hNpos : 0 < genSteps (loopStart s) (loopStop s) s.booking_slot_duration := by
    unfold genSteps
    have h1 : 1 * s.booking_slot_duration ≤
        loopStop s - loopStart s + s.booking_slot_duration - 1 := by
      omega
    have h2 := (Nat.le_div_iff_mul_le hslot).mpr h1
    omega
  refine ⟨hmain, ?_, ?_, ?_, ?_⟩
  · rw [hmain, List.head?_eq_getElem?, List.getElem?_map, List.getElem?_range hNpos]
    simp
  · intro i hi
    rw [hmain] at hi
    simp only [List.length_map, List.length_range] at hi
    exact genSteps_mul_lt _ _ _ _ hslot hi
  · intro h247
    rw [hmain]
    simp only [List.length_map, List.length_range]
    unfold loopStart loopStop
    rcases hslot3 with h | h | h <;> simp [h247, h, genSteps]
  · intro hs
    subst hs
    rw [hmain]
    have hN : genSteps (loopStart scenarioSettings) (loopStop scenarioSettings)
        scenarioSettings.booking_slot_duration = 32 := by
      norm_num [genSteps, loopStart, loopStop, scenarioSettings, HM.toMin]
    rw [hN]
    constructor <;> decide

/-- C6 witness: the slot-generator theorem applied at the scenario 1
settings, whose first candidate start time is "06:00" and last "21:30". -/
theorem generateTimeOptions_spec_witness :
    ValidSettings scenarioSettings ∧
    (generateTimeOptions scenarioSettings).head? = some "06:00" ∧
    (generateTimeOptions scenarioSettings).getLast? = some "21:30" := by
  have hv : ValidSettings scenarioSettings := by
    norm_num [ValidSettings, HM.WF, HM.toMin, scenarioSettings]
  exact ⟨hv, (generateTimeOptions_spec scenarioSettings hv).2.2.2.2 rfl⟩

/-- C7 counterexample: the claim asserts that every supplied
min_booking_duration outside [0.5, 8] produces an error and isValid is true
exactly when no rule is violated.  A patch supplying min_booking_duration =
0 — outside [0.5, 8] — yields isValid = true with an empty error list,
because the guard `settings.min_booking_duration && ...` treats the falsy
number 0 as absent. -/
theorem validateSettings_zero_min_accepted :
    validateSettings ⟨none, none, none, none, none, some 0, none, none⟩ = ⟨true, []⟩ ∧
    ¬((1 : ℚ) / 2 ≤ 0) := by
  constructor
  · decide
  · norm_num

/-- C7 amended: `validateSettings` collects, without raising, one error per
violated rule whose guarding field is truthy — for numeric fields, present
and non-zero (a supplied 0 is treated as absent) — and isValid holds exactly
when the error list is empty, equivalently when every truthily-supplied
field satisfies its rule; each supplied non-zero min outside [0.5, 8], max
outside [1, 12], and non-zero pair with min ≥ max contributes its specific
message to the returned list. -/
theorem validateSettings_spec (s : SettingsPatch) :
    ((validateSettings s).isValid = true ↔ (validateSettings s).errors = [])
  ∧ ((validateSettings s).isValid = true ↔
      ( (truthyFlag s.is_24_7 = false →
          ∀ o c, s.opening_time = some o → s.closing_time = some c → o.toMin < c.toMin)
      ∧ (∀ v, s.advance_booking_days = some v → v ≠ 0 → 1 ≤ v ∧ v ≤ 30)
      ∧ (∀ v, s.booking_slot_duration = some v → v ≠ 0 → v = 15 ∨ v = 30 ∨ v = 60)
      ∧ (∀ v w, s.min_booking_duration = some v → s.max_booking_duration = some w →
          v ≠ 0 → w ≠ 0 → v < w)
      ∧ (∀ v, s.min_booking_duration = some v → v ≠ 0 → 1 / 2 ≤ v ∧ v ≤ 8)
      ∧ (∀ v, s.max_booking_duration = some v → v ≠ 0 → 1 ≤ v ∧ v ≤ 12)
      ∧ (∀ v, s.cancellation_deadline = some v → v ≠ 0 → 0 ≤ v ∧ v ≤ 48)))
  ∧ ("Minimum booking duration must be between 0.5 and 8 hours" ∈ (validateSettings s).errors ↔
      ∃ v, s.min_booking_duration = some v ∧ v ≠ 0 ∧ (v < 1 / 2 ∨ 8 < v))
  ∧ ("Maximum booking duration must be between 1 and 12 hours" ∈ (validateSettings s).errors ↔
      ∃ v, s.max_booking_duration = some v ∧ v ≠ 0 ∧ (v < 1 ∨ 12 < v))
  ∧ ("Minimum booking duration must be less than maximum duration" ∈ (validateSettings s).errors ↔
      ∃ v w, s.min_booking_duration = some v ∧ s.max_booking_duration = some w ∧
        v ≠ 0 ∧ w ≠ 0 ∧ w ≤ v) := by
  have hmem : ∀ m : String, m ∈ (validateSettings s).errors ↔
      ((m = "Opening time must be before closing time" ∧ truthyFlag s.is_24_7 = false ∧
          ∃ o c, s.opening_time = some o ∧ s.closing_time = some c ∧ c.toMin ≤ o.toMin)
      ∨ (m = "Advance booking days must be between 1 and 30" ∧
          ∃ v, s.advance_booking_days = some v ∧ v ≠ 0 ∧ (v < 1 ∨ 30 < v))
      ∨ (m = "Booking slot duration must be 15, 30, or 60 minutes" ∧
          ∃ v, s.booking_slot_duration = some v ∧ v ≠ 0 ∧ ¬(v = 15 ∨ v = 30 ∨ v = 60))
      ∨ (m = "Minimum booking duration must be less than maximum duration" ∧
          ∃ v w, s.min_booking_duration = some v ∧ s.max_booking_duration = some w ∧
            v ≠ 0 ∧ w ≠ 0 ∧ w ≤ v)
      ∨ (m = "Minimum booking duration must be between 0.5 and 8 hours" ∧
          ∃ v, s.min_booking_duration = some v ∧ v ≠ 0 ∧ (v < 1 / 2 ∨ 8 < v))
      ∨ (m = "Maximum booking duration must be between 1 and 12 hours" ∧
          ∃ v, s.max_booking_duration = some v ∧ v ≠ 0 ∧ (v < 1 ∨ 12 < v))
      ∨ (m = "Cancellation deadline must be between 0 and 48 hours" ∧
          ∃ v, s.cancellation_deadline = some v ∧ v ≠ 0 ∧ (v < 0 ∨ 48 < v))) := by
    intro m
    simp only [validateSettings, List.mem_append, or_assoc, mem_timeErr, mem_numErr,
      mem_minMaxErr]
  refine ⟨validateSettings_isValid_iff_nil s, ?_, ?_, ?_, ?_⟩
  · rw [validateSettings_isValid_iff_nil s]
    exact validateSettings_errors_nil_iff s
  · rw [hmem]
    constructor
    · rintro (⟨h, -⟩ | ⟨h, -⟩ | ⟨h, -⟩ | ⟨h, -⟩ | ⟨-, hc⟩ | ⟨h, -⟩ | ⟨h, -⟩) <;>
        first
          | exact hc
          | exact absurd h (by decide)
    · intro hc
      exact Or.inr (Or.inr (Or.inr (Or.inr (Or.inl ⟨rfl, hc⟩))))
  · rw [hmem]
    constructor
    · rintro (⟨h, -⟩ | ⟨h, -⟩ | ⟨h, -⟩ | ⟨h, -⟩ | ⟨h, -⟩ | ⟨-, hc⟩ | ⟨h, -⟩) <;>
        first
          | exact hc
          | exact absurd h (by decide)
    · intro hc
      exact Or.inr (Or.inr (Or.inr (Or.inr (Or.inr (Or.inl ⟨rfl, hc⟩)))))
  · rw [hmem]
    constructor
    · rintro (⟨h, -⟩ | ⟨h, -⟩ | ⟨h, -⟩ | ⟨-, hc⟩ | ⟨h, -⟩ | ⟨h, -⟩ | ⟨h, -⟩) <;>
        first
          | exact hc
          | exact absurd h (by decide)
    · intro hc
      exact Or.inr (Or.inr (Or.inr (Or.inl ⟨rfl, hc⟩)))

/-- C8 counterexample: the claim asserts user cancellation of a confirmed
booking is permitted iff the time to start exceeds the configured
cancellation_deadline from SystemSettings.  With a configured deadline of 5
hours (a value in [0, 48]) and a confirmed booking starting 3 hours from
now, the source permits cancellation (its threshold is the hard-coded 2)
while the spec rule forbids it; the source function consults no settings at
all. -/
theorem canCancelBooking_fixed_two_hour_deadline :
    canCancelBooking .confirmed (3 * 3600000) 0 = true ∧
    canCancelBookingSpec 5 .confirmed (3 * 3600000) 0 = false ∧
    (0 : ℚ) ≤ 5 ∧ (5 : ℚ) ≤ 48 := by
  refine ⟨?_, ?_, by norm_num, by norm_num⟩
  · norm_num [canCancelBooking]
  · norm_num [canCancelBookingSpec]
    decide

/-- C8 amended: user cancellation is permitted iff the booking is pending,
or it is confirmed and starts strictly more than 2 hours from now — the 2 is
hard-coded in `canCancelBooking`; the configured cancellation_deadline is
never read. -/
theorem canCancelBooking_iff (status : BookingStatus) (bookingTimeMs nowMs : ℤ) :
    canCancelBooking status bookingTimeMs nowMs = true ↔
      (status = .pending ∨
        (status = .confirmed ∧
          (2 : ℚ) < ((bookingTimeMs - nowMs : ℤ) : ℚ) / (1000 * 60 * 60))) := by
  simp [canCancelBooking]

/-- C9: the claim asserts a failed read during the conflict check propagates
the error unmodified and prevents the insert.  In the source,
`checkBookingConflict` catches the storage error and answers `false` (no
conflict), so `createBooking` proceeds to issue the insert and returns a
created booking with no error — the storage failure became a false
negative. -/
theorem checkBookingConflict_error_false_negative :
    checkBookingConflict (Except.error "network failure") = false ∧
    createBooking (Except.error "network failure") (Except.ok ()) = ⟨true, true, none⟩ := by
  exact ⟨rfl, rfl⟩

/-- C10: the earliest selectable booking date is today exactly when is_24_7
is true, and tomorrow when it is false (or when no settings are loaded),
regardless of every other settings field. -/
theorem getMinDate_spec (s : SystemSettings) (today : ℤ) :
    (s.is_24_7 = true → getMinDate (some s) today = today)
  ∧ (s.is_24_7 = false → getMinDate (some s) today = today + 1)
  ∧ getMinDate none today = today + 1 := by
  refine ⟨fun h => ?_, fun h => ?_, rfl⟩ <;> simp [getMinDate, h]

/-- C10 witness: the minimum-date rule applied to a 24/7 settings value and
to the scenario 1 (non-24/7) settings on day 100. -/
theorem getMinDate_spec_witness :
    getMinDate (some ⟨⟨0, 0⟩, ⟨0, 0⟩, true, 1, true, 30, 1, 4, 2⟩) 100 = 100 ∧
    getMinDate (some scenarioSettings) 100 = 101 :=
  ⟨(getMinDate_spec ⟨⟨0, 0⟩, ⟨0, 0⟩, true, 1, true, 30, 1, 4, 2⟩ 100).1 rfl,
   (getMinDate_spec scenarioSettings 100).2.1 rfl⟩
